import Mathlib

/-!
Verification of `.opencode/plugin/dev-server-hmr.ts` (build-and-release
automation plugin) against its natural-language specification.

The plugin reacts to session lifecycle events: on "session.idle" it runs
`pnpm build`; on failure it updates a retry counter stored in the property
`client.session["tries"]` and either reports an Errored status or sends a
corrective follow-up prompt; it then (on the success path, and — as the
source is written — also after a follow-up prompt) performs a release
(version bump, git commit/tag/push, manifest rewrite) and reports Active.
A separate "chat.message" hook reports Pending.

The embedding below is a shallow one: the handler becomes a pure function
from the mutable counter state and an environment (the outcomes of the
external collaborators: build, filesystem, session API, git) to the new
state and the list of side effects performed, in order.

Modelling deviations, none of which affect any claim below:
* `console.log` / `console.error` text is not recorded except for the
  single `console.error("Failed to push to git", ...)` of the catch block,
  recorded as `Effect.logErrorGit`.
* A manifest whose `version` field does not consist of at least three
  dot-separated digit runs is modelled as a caught parse failure, where
  JavaScript would instead produce a string containing `NaN` and carry on;
  every claim uses well-formed `major.minor.patch` versions.
* `JSON.stringify(packageJson, null, 2)` re-serialization is modelled as
  writing the structured manifest value back (field-preserving by
  construction of the read-modify-write on the parsed object).
-/

/-- The three status values accepted by `updateAppStatus`. -/
inductive Status where
  | Pending
  | Active
  | Errored
deriving DecidableEq, Repr

/-- The JSON string used for a status in the request body. -/
def statusString : Status → String
  | Status.Pending => "Pending"
  | Status.Active => "Active"
  | Status.Errored => "Errored"

/-- An HTTP request, as `axios.put(url, body, config)` would issue one. -/
structure HttpRequest where
  method : String
  url : String
  body : String
  headers : List (String × String)
deriving DecidableEq, Repr

/-- The zod schema at module load: `z.object({ vmOrchestrationStatusUpdateUrl:
    z.string() }).parse({...: process.env.TAYLORDB_VM_ORCHESTRATION_STATUS_UPDATE_URL })`.
    `z.string()` rejects `undefined`, so a missing environment variable is a
    parse error thrown at module load. -/
def parseConfig (envVar : Option String) : Except String String :=
  match envVar with
  | some url => Except.ok url
  | none => Except.error "invalid_type: expected string, received undefined"

/-- `updateAppStatus` from the source. Its entire body — the
    `axios.put("/", JSON.stringify({ status }), { headers: { "Content-Type":
    "application/json" } })` call — is commented out in the source, so the
    function performs no HTTP request and always resolves successfully.
    The result models the async outcome: `Except.ok` of the list of HTTP
    requests performed (always empty). The `endpoint` parameter is the
    configured base URL the closed-over axios instance was created with;
    the function never uses it. -/
def updateAppStatus (endpoint : Option String) (status : Status) :
    Except String (List HttpRequest) :=
  Except.ok []

/-- Calling `updateAppStatus` twice in sequence with the same status,
    collecting the requests of both calls. -/
def emitTwice (endpoint : Option String) (status : Status) :
    Except String (List HttpRequest) := do
  let r1 ← updateAppStatus endpoint status
  let r2 ← updateAppStatus endpoint status
  Except.ok (r1 ++ r2)

/-- Modelled from the spec (for comparison with `updateAppStatus`, which is
    the source's behaviour): the request list the specification says `emit`
    performs — a single PUT to the configured base URL with JSON body
    `{"status": "<status>"}` and a Content-Type header. -/
def specEmitRequests (baseUrl : String) (status : Status) : List HttpRequest :=
  [{ method := "PUT"
     url := baseUrl
     body := "\x7b\"status\":\"" ++ statusString status ++ "\"\x7d"
     headers := [("Content-Type", "application/json")] }]

/-- The parsed `package.json`: its `version` field plus all other fields
    (kept abstract as key/value pairs; the release path never touches them). -/
structure Manifest where
  version : String
  otherFields : List (String × String)
deriving DecidableEq, Repr

/-- `version.split(".")` on the character list: split on each dot, keeping
    empty runs, as JavaScript `String.prototype.split` does. -/
def splitOnDot : List Char → List (List Char)
  | [] => [[]]
  | c :: rest =>
    let r := splitOnDot rest
    if c = '.' then [] :: r
    else
      match r with
      | [] => [[c]]
      | g :: gs => (c :: g) :: gs

/-- `Number(component)` restricted to the digit-run case: a run of decimal
    digits maps to its value (the empty run to 0, as `Number("") == 0`);
    anything containing a non-digit is modelled as a parse failure. -/
def jsNumberOfDigits (cs : List Char) : Option Nat :=
  if cs.all (fun c => c.isDigit) then
    some (cs.foldl (fun acc c => acc * 10 + (c.toNat - 48)) 0)
  else none

/-- Lines 72–74 of the source: `packageJson.version.split(".").map(Number)`
    destructured as `[major, minor, patch]` (extra components are ignored,
    exactly as array destructuring ignores them). -/
def parseVersionTriple (version : String) : Option (Nat × Nat × Nat) :=
  match (splitOnDot version.toList).map jsNumberOfDigits with
  | some major :: some minor :: some patch :: _ => some (major, minor, patch)
  | _ => none

/-- Line 75 of the source: the template literal
    `` `${major}.${minor}.${patch + 1}` ``. -/
def newVersionString (major minor patch : Nat) : String :=
  toString major ++ "." ++ toString minor ++ "." ++ toString (patch + 1)

/-- Rendering an arbitrary `(major, minor, patch)` triple; used to state
    that the bumped version is exactly the old triple with `patch + 1`. -/
def renderVersion (major minor patch : Nat) : String :=
  toString major ++ "." ++ toString minor ++ "." ++ toString patch

/-- Line 81–82 of the source: `session.data?.title ?? "feat: release version
    v" + newVersion` — the nullish-coalescing operator falls back only when
    `data?.title` is null/undefined, not when it is the empty string.
    `title` is the resolved value of `session.data?.title`. -/
def commitMessageOf (title : Option String) (newVersion : String) : String :=
  match title with
  | some t => t
  | none => "feat: release version v" ++ newVersion

/-- The text of the corrective follow-up prompt sent on a tolerated build
    failure (line 60 of the source). -/
def buildFailureText (stderr : String) : String :=
  "While building the project, the following error occurred:\n\n" ++ stderr ++
    "\n\nPlease fix the error and try again."

/-- An incoming lifecycle event: its `type` and `properties.sessionID`. -/
structure Event where
  type : String
  sessionID : String
deriving DecidableEq, Repr

/-- The outcome of `await $\x7bpnpm build\x7d.catch((error) => error)`:
    the exit code and the captured standard-error text. -/
structure BuildResult where
  exitCode : Int
  stderr : String
deriving DecidableEq, Repr

instance {ε α : Type} [DecidableEq ε] [DecidableEq α] : DecidableEq (Except ε α)
  | Except.ok a, Except.ok b =>
    if h : a = b then Decidable.isTrue (congrArg Except.ok h)
    else Decidable.isFalse (fun hc => h (Except.ok.inj hc))
  | Except.error e, Except.error f =>
    if h : e = f then Decidable.isTrue (congrArg Except.error h)
    else Decidable.isFalse (fun hc => h (Except.error.inj hc))
  | Except.ok _, Except.error _ => Decidable.isFalse (fun hc => Except.noConfusion hc)
  | Except.error _, Except.ok _ => Decidable.isFalse (fun hc => Except.noConfusion hc)

/-- The environment: the outcomes of every external collaborator the handler
    consults. `manifest` is the joint outcome of `fs.readFile("package.json")`
    and `JSON.parse`; `sessionTitle` the outcome of `client.session.get`
    resolved to `session.data?.title`; the `Bool` fields say whether the
    corresponding shell command / file write succeeds (a `false` throws,
    to be caught by the surrounding `try`). -/
structure Env where
  build : BuildResult
  manifest : Except Unit Manifest
  sessionTitle : Except Unit (Option String)
  gitConfigNameOk : Bool
  gitConfigEmailOk : Bool
  gitAddOk : Bool
  gitCommitOk : Bool
  gitTagOk : Bool
  gitPushOk : Bool
  writeOk : Bool
deriving DecidableEq, Repr

/-- One observable side effect of the handler, in program order. -/
inductive Effect where
  | runBuild
  | updateStatus (status : Status)
  | promptSession (sessionId : String) (text : String)
  | readManifest
  | sessionGet (sessionId : String)
  | gitConfigUserName (name : String)
  | gitConfigUserEmail (email : String)
  | gitAddAll
  | gitCommit (message : String)
  | gitTag (tag : String)
  | gitPushOriginMainTags
  | writeManifest (m : Manifest)
  | logErrorGit
deriving DecidableEq, Repr

/-- Lines 41–45 of the source:
    `if (!client.session["tries"]) { client.session["tries"] = 0 } else
    { client.session["tries"]++ }`. The guard tests JavaScript truthiness,
    so both an absent property and a stored 0 take the first branch. -/
def jsUpdateTries : Option Nat → Option Nat
  | none => some 0
  | some 0 => some 0
  | some n => some (n + 1)

/-- The six git commands of the release block, each paired with whether it
    succeeds in the given environment. -/
def gitSteps (env : Env) (commitMessage newVersion : String) :
    List (Effect × Bool) :=
  [ (Effect.gitConfigUserName "Taylor AI", env.gitConfigNameOk),
    (Effect.gitConfigUserEmail "ai@taylordb.io", env.gitConfigEmailOk),
    (Effect.gitAddAll, env.gitAddOk),
    (Effect.gitCommit commitMessage, env.gitCommitOk),
    (Effect.gitTag ("v" ++ newVersion), env.gitTagOk),
    (Effect.gitPushOriginMainTags, env.gitPushOk) ]

/-- Run commands in order; a failing command is still attempted (recorded)
    but throws, so nothing after it runs. Returns the effects performed and
    whether all commands succeeded. -/
def runSteps : List (Effect × Bool) → List Effect × Bool
  | [] => ([], true)
  | (e, ok) :: rest =>
    if ok then
      let r := runSteps rest
      (e :: r.1, r.2)
    else ([e], false)

/-- Lines 68–101 of the source: the `try { ... } catch (error) {
    console.error("Failed to push to git", error) }` release block. Any
    thrown error — manifest read/parse failure, session lookup failure, a
    failing git command, a failing manifest write — lands in the catch,
    which only logs. Returns the effects performed inside the block
    (including the catch's log). -/
def tryRelease (env : Env) : List Effect :=
  Effect.readManifest ::
    match env.manifest with
    | Except.error _ => [Effect.logErrorGit]
    | Except.ok pkg =>
      match parseVersionTriple pkg.version with
      | none => [Effect.logErrorGit]
      | some (major, minor, patch) =>
        let newVersion := newVersionString major minor patch
        match env.sessionTitle with
        | Except.error _ => [Effect.logErrorGit]
        | Except.ok title =>
          let commitMessage := commitMessageOf title newVersion
          let git := runSteps (gitSteps env commitMessage newVersion)
          if git.2 then
            if env.writeOk then
              git.1 ++ [Effect.writeManifest { pkg with version := newVersion }]
            else
              git.1 ++ [Effect.writeManifest { pkg with version := newVersion },
                        Effect.logErrorGit]
          else git.1 ++ [Effect.logErrorGit]

/-- The `event` handler of the plugin (lines 35–104 of the source), as a
    function of the stored `client.session["tries"]` property (`none` when
    the property is absent) and the environment. Returns the new value of
    the property and the side effects performed, in order.

    Control flow mirrors the source exactly: a non-"session.idle" event
    returns at once; otherwise the build runs; on a non-zero exit the
    counter is updated by `jsUpdateTries` and either (counter > 3) an
    Errored status is emitted and the handler returns, or a corrective
    prompt is sent and — the source has no `return` here — control falls
    through into the release block; the release block and the Active
    status emission run on every path that reaches them. -/
def eventHandler (tries : Option Nat) (ev : Event) (env : Env) :
    Option Nat × List Effect :=
  if ev.type ≠ "session.idle" then (tries, [])
  else if env.build.exitCode ≠ 0 then
    let tries1 := jsUpdateTries tries
    if tries1.getD 0 > 3 then
      (tries1, [Effect.runBuild, Effect.updateStatus Status.Errored])
    else
      (tries1,
        Effect.runBuild ::
          Effect.promptSession ev.sessionID (buildFailureText env.build.stderr) ::
            (tryRelease env ++ [Effect.updateStatus Status.Active]))
  else
    (tries,
      Effect.runBuild :: (tryRelease env ++ [Effect.updateStatus Status.Active]))

/-- The `"chat.message"` handler of the plugin: emits Pending. -/
def chatMessageHandler : List Effect :=
  [Effect.updateStatus Status.Pending]

/-- Run `n` consecutive "session.idle" events through the handler with a
    fixed environment, threading the counter and concatenating the traces. -/
def runIdle : Nat → Option Nat → Event → Env → Option Nat × List Effect
  | 0, tries, _, _ => (tries, [])
  | n + 1, tries, ev, env =>
    let first := eventHandler tries ev env
    let rest := runIdle n first.1 ev env
    (rest.1, first.2 ++ rest.2)

/-- A "session.idle" event for a given session id. -/
def idleEvent (sessionId : String) : Event :=
  { type := "session.idle", sessionID := sessionId }

/-- An environment whose build fails with exit code 1 and stderr
    "type error on line 5", with every release collaborator succeeding. -/
def failEnv : Env :=
  { build := { exitCode := 1, stderr := "type error on line 5" }
    manifest := Except.ok { version := "1.2.3", otherFields := [] }
    sessionTitle := Except.ok none
    gitConfigNameOk := true
    gitConfigEmailOk := true
    gitAddOk := true
    gitCommitOk := true
    gitTagOk := true
    gitPushOk := true
    writeOk := true }

/-- An environment whose build succeeds, with every release collaborator
    succeeding. -/
def successEnv : Env :=
  { failEnv with build := { exitCode := 0, stderr := "" } }

/-- An all-collaborators-succeed environment with a successful build, a
    given manifest version, given other manifest fields and a given
    resolved session title. -/
def goodEnv (version : String) (others : List (String × String))
    (title : Option String) : Env :=
  { build := { exitCode := 0, stderr := "" }
    manifest := Except.ok { version := version, otherFields := others }
    sessionTitle := Except.ok title
    gitConfigNameOk := true
    gitConfigEmailOk := true
    gitAddOk := true
    gitCommitOk := true
    gitTagOk := true
    gitPushOk := true
    writeOk := true }

/-- An environment with a successful build whose release block fails at the
    very first step (manifest read/parse throws). -/
def brokenReleaseEnv : Env :=
  { successEnv with manifest := Except.error () }

theorem getLast_append_singleton (l : List Effect) (a : Effect) :
    (l ++ [a]).getLast? = some a := by simp

/-- C1: the claim says the 5th consecutive build failure, and only it,
    triggers StatusReporter.emit(Errored). The code instead guards the
    counter update with a JavaScript truthiness test (`!client.session["tries"]`),
    and a stored 0 is falsy, so on every failure after the first the counter
    is re-initialized to 0 rather than incremented: after five consecutive
    failures the counter is still 0, no Errored status was ever emitted, and
    the 5th failure still sends a follow-up prompt. -/
theorem C1_fifth_failure_never_errors :
    (runIdle 5 none (idleEvent "session-A") failEnv).1 = some 0 ∧
    Effect.updateStatus Status.Errored ∉
      (runIdle 5 none (idleEvent "session-A") failEnv).2 ∧
    Effect.promptSession "session-A" (buildFailureText "type error on line 5") ∈
      (eventHandler (runIdle 4 none (idleEvent "session-A") failEnv).1
        (idleEvent "session-A") failEnv).2 := by decide

/-- C2: the claim says an existing counter entry is incremented by 1 on a
    failure, with presence/absence — not truthiness — deciding between
    initialization and increment. The code's guard is the truthiness test
    `!client.session["tries"]`, so a present entry holding 0 is re-set to 0
    instead of being incremented to 1: after the second consecutive failure
    the counter is still 0. -/
theorem C2_counter_reset_on_second_failure :
    jsUpdateTries none = some 0 ∧
    jsUpdateTries (some 0) = some 0 ∧
    (runIdle 2 none (idleEvent "session-A") failEnv).1 = some 0 := by decide

/-- C3: the claim says that on a build failure with post-update counter ≤ 3
    the handler sends the follow-up prompt and returns, performing no
    release bookkeeping and emitting no further status. The code has no
    `return` after `client.session.prompt`, so control falls through into
    the release block: on the very first failure the trace contains the
    prompt AND the git commit, tag, manifest write AND an Active status
    emission. -/
theorem C3_failure_path_reaches_release :
    Effect.promptSession "session-A" (buildFailureText "type error on line 5") ∈
      (eventHandler none (idleEvent "session-A") failEnv).2 ∧
    Effect.gitCommit "feat: release version v1.2.4" ∈
      (eventHandler none (idleEvent "session-A") failEnv).2 ∧
    Effect.gitTag "v1.2.4" ∈ (eventHandler none (idleEvent "session-A") failEnv).2 ∧
    Effect.writeManifest { version := "1.2.4", otherFields := [] } ∈
      (eventHandler none (idleEvent "session-A") failEnv).2 ∧
    Effect.updateStatus Status.Active ∈
      (eventHandler none (idleEvent "session-A") failEnv).2 := by decide

/-- C4: every successful build (exit code 0) leads to an Active status
    emission, whatever the counter state and however the release block's
    collaborators behave — any failure inside the release block is caught
    by its try/catch, so the handler always reaches the final
    `updateAppStatus("Active")`, which is moreover the last effect. -/
theorem C4_success_always_emits_active (tries : Option Nat) (ev : Event)
    (env : Env) (hty : ev.type = "session.idle")
    (hexit : env.build.exitCode = 0) :
    Effect.updateStatus Status.Active ∈ (eventHandler tries ev env).2 ∧
    (eventHandler tries ev env).2.getLast? =
      some (Effect.updateStatus Status.Active) := by
  unfold eventHandler
  rw [hty, hexit]
  simp only [ne_eq, not_true_eq_false, if_false, not_false_eq_true]
  constructor
  · simp
  · rw [show Effect.runBuild :: (tryRelease env ++ [Effect.updateStatus Status.Active]) =
        (Effect.runBuild :: tryRelease env) ++ [Effect.updateStatus Status.Active] from rfl]
    exact getLast_append_singleton _ _

/-- Witness for C4 at a concrete input where the release block fails at its
    first step: Active is still emitted and is the last effect. -/
theorem C4_success_always_emits_active_witness :
    (idleEvent "s1").type = "session.idle" ∧
    brokenReleaseEnv.build.exitCode = 0 ∧
    (Effect.updateStatus Status.Active ∈
        (eventHandler none (idleEvent "s1") brokenReleaseEnv).2 ∧
      (eventHandler none (idleEvent "s1") brokenReleaseEnv).2.getLast? =
        some (Effect.updateStatus Status.Active)) :=
  ⟨rfl, rfl, C4_success_always_emits_active none (idleEvent "s1") brokenReleaseEnv rfl rfl⟩

/-- C5: whenever the manifest version parses as (major, minor, patch), a
    successful release tags `v<major>.<minor>.<patch+1>` — exactly the old
    triple with only the patch component incremented — and rewrites the
    manifest with that version, leaving every other manifest field
    untouched. -/
theorem C5_release_bumps_only_patch (major minor patch : Nat) (v : String)
    (others : List (String × String)) (title : Option String)
    (h : parseVersionTriple v = some (major, minor, patch)) :
    newVersionString major minor patch = renderVersion major minor (patch + 1) ∧
    Effect.gitTag ("v" ++ newVersionString major minor patch) ∈
      tryRelease (goodEnv v others title) ∧
    Effect.writeManifest
        { version := newVersionString major minor patch, otherFields := others } ∈
      tryRelease (goodEnv v others title) := by
  refine ⟨rfl, ?_, ?_⟩ <;>
    simp [tryRelease, goodEnv, h, gitSteps, runSteps]

/-- Witness for C5: manifest version "2.0.9" produces tag v2.0.10 and a
    manifest rewritten to version "2.0.10" with the other field preserved. -/
theorem C5_release_bumps_only_patch_witness :
    parseVersionTriple "2.0.9" = some (2, 0, 9) ∧
    Effect.gitTag "v2.0.10" ∈
      tryRelease (goodEnv "2.0.9" [("name", "taylordb-blank")] none) ∧
    Effect.writeManifest
        { version := "2.0.10", otherFields := [("name", "taylordb-blank")] } ∈
      tryRelease (goodEnv "2.0.9" [("name", "taylordb-blank")] none) := by
  have h := C5_release_bumps_only_patch 2 0 9 "2.0.9"
    [("name", "taylordb-blank")] none (by decide)
  refine ⟨by decide, ?_, ?_⟩
  · have e : ("v" ++ newVersionString 2 0 9 : String) = "v2.0.10" := by decide
    exact e ▸ h.2.1
  · have e : newVersionString 2 0 9 = "2.0.10" := by decide
    exact e ▸ h.2.2

/-- C6 counterexample: the claim says an empty-string title falls back to
    the synthesized message. The source uses the nullish-coalescing
    operator (`session.data?.title ?? ...`), which does not fall back on
    the empty string: with title `""` and manifest version "1.2.3" the
    release commits with the empty message, not with
    "feat: release version v1.2.4". -/
theorem C6_commit_message_claim_false :
    Effect.gitCommit "" ∈ tryRelease (goodEnv "1.2.3" [] (some "")) ∧
    Effect.gitCommit "feat: release version v1.2.4" ∉
      tryRelease (goodEnv "1.2.3" [] (some "")) := by decide

/-- C6 as amended: the commit message equals the session's title whenever
    the title is present — including when it is the empty string — and
    equals the synthesized "feat: release version v<next-version>" only
    when the title is null/undefined. -/
theorem C6_commit_message_amended (title : String)
    (others : List (String × String)) :
    commitMessageOf (some title) "1.2.4" = title ∧
    commitMessageOf none "1.2.4" = "feat: release version v1.2.4" ∧
    Effect.gitCommit title ∈ tryRelease (goodEnv "1.2.3" others (some title)) ∧
    Effect.gitCommit "feat: release version v1.2.4" ∈
      tryRelease (goodEnv "1.2.3" others none) := by
  have hp : parseVersionTriple "1.2.3" = some (1, 2, 3) := by decide
  have hv : newVersionString 1 2 3 = "1.2.4" := by decide
  refine ⟨rfl, rfl, ?_, ?_⟩ <;>
    simp [tryRelease, goodEnv, hp, hv, gitSteps, runSteps, commitMessageOf]

/-- C7: `updateAppStatus` never fails, for any status and any endpoint
    configuration (including an absent one), and performs no request — its
    body is fully commented out in the source; calling it twice with the
    same status likewise succeeds with no requests performed. -/
theorem C7_emit_never_fails (endpoint : Option String) (status : Status) :
    updateAppStatus endpoint status = Except.ok [] ∧
    emitTwice endpoint status = Except.ok [] :=
  ⟨rfl, rfl⟩

/-- C8 counterexample: the claim says `emit` performs a PUT with JSON body
    and Content-Type header. The axios call is commented out in the source,
    so for status Pending (and any endpoint) the performed request list is
    empty, while the spec's description of the request list is non-empty. -/
theorem C8_put_request_claim_false :
    updateAppStatus (some "http://orchestrator.example") Status.Pending =
      Except.ok [] ∧
    specEmitRequests "http://orchestrator.example" Status.Pending ≠ [] :=
  ⟨rfl, by decide⟩

/-- C8 as amended: `updateAppStatus` performs no HTTP request at all for any
    status value — the PUT with JSON body and Content-Type header exists in
    the source only as commented-out code. -/
theorem C8_emit_performs_no_request (endpoint : Option String)
    (status : Status) :
    updateAppStatus endpoint status = Except.ok [] :=
  rfl

/-- C9: the claim says retry counts live in a side-table keyed by session
    id and that a successful build removes the session's entry. The code
    keeps a single `tries` property on the shared `client.session` object:
    the update is identical for events of different sessions, and a
    successful build leaves an existing entry in place (the success path
    never touches the property). -/
theorem C9_counter_shared_and_not_cleared :
    (eventHandler (some 0) (idleEvent "session-A") successEnv).1 = some 0 ∧
    (eventHandler (some 2) (idleEvent "session-A") failEnv).1 =
      (eventHandler (some 2) (idleEvent "session-B") failEnv).1 ∧
    (eventHandler (some 2) (idleEvent "session-B") failEnv).1 = some 3 := by
  decide

/-- C10: an event whose type is not "session.idle" makes the handler return
    at once: the counter is unchanged and no effect — build, prompt, git
    command, manifest access or status emission — is performed. -/
theorem C10_non_idle_event_is_noop (tries : Option Nat) (ev : Event)
    (env : Env) (h : ev.type ≠ "session.idle") :
    eventHandler tries ev env = (tries, []) := by
  unfold eventHandler
  rw [if_pos h]

/-- Witness for C10 at the concrete event type "session.updated". -/
theorem C10_non_idle_event_is_noop_witness :
    ({ type := "session.updated", sessionID := "s1" } : Event).type ≠
      "session.idle" ∧
    eventHandler (some 2) { type := "session.updated", sessionID := "s1" }
      successEnv = (some 2, []) :=
  ⟨by decide,
    C10_non_idle_event_is_noop (some 2)
      { type := "session.updated", sessionID := "s1" } successEnv (by decide)⟩
